import Mathlib

/-!
# Verification of the prose PSF model-fitting engine

Shallow embedding of `src/prose/blocks/psf.py` (functions `moments`,
`MedianEPSF.run`, `_PSFModelBase.run`, `_JAXPSFModel.optimize`, the
Gaussian2D / Moffat2D model functions and their bounded optimizers), with
theorems settling the frozen claims about the natural-language spec.

Conventions of the embedding:
* Pixel values are rationals (`ℚ`); float NaN is represented by `Option ℚ`
  (`none` = NaN) exactly where the Python code can produce or propagate NaN.
* Transcendental float intrinsics (`exp`, `cos`, `sin`, `power`, `sqrt`) are
  taken as function parameters: every theorem below holds for (or is refuted
  at) arbitrary interpretations of them, so nothing depends on float rounding.
* A 2-D numpy array is a `List (List ℚ)` (row-major); `np.indices` gives, at
  pixel `(i, j)`, first coordinate `i` and second coordinate `j`.
* Python exceptions are `Except` errors; the constructors name the concrete
  exception the interpreter raises at that site.
-/

namespace Prose

/-- Maximum of a list of rationals; `0` for the empty list (numpy's
`np.nanmax` raises on an empty input — callers guard that case). -/
def listMax : List ℚ → ℚ
  | [] => 0
  | x :: xs => xs.foldl max x

/-- Minimum of a list of rationals; `0` for the empty list. -/
def listMin : List ℚ → ℚ
  | [] => 0
  | x :: xs => xs.foldl min x

/-- Flatten a 2-D array. -/
def flat2 (m : List (List ℚ)) : List ℚ := m.flatten

/-- Embedding of `np.nanmax(data)` over a whole 2-D array. -/
def max2 (m : List (List ℚ)) : ℚ := listMax (flat2 m)

/-- Embedding of `np.min(data)` over a whole 2-D array. -/
def min2 (m : List (List ℚ)) : ℚ := listMin (flat2 m)

/-- Embedding of `data.sum()` over a whole 2-D array. -/
def sum2 (m : List (List ℚ)) : ℚ := (flat2 m).foldl (· + ·) 0

/-- Number of elements of a 2-D array. -/
def numel (m : List (List ℚ)) : ℕ := (flat2 m).length

/-- Embedding of `np.mean(data)` over a whole 2-D array. -/
def mean2 (m : List (List ℚ)) : ℚ := sum2 m / (numel m : ℚ)

/-- Entry `(i, j)` of a 2-D array (`0` out of range; all uses are in range). -/
def get2 (m : List (List ℚ)) (i j : ℕ) : ℚ := (m.getD i []).getD j 0

/-- The numpy shape of a 2-D array, as the list `[rows, cols]`. -/
def shape2 (m : List (List ℚ)) : List ℕ := [m.length, (m.headD []).length]

/-- Insert into a `≤`-sorted list of rationals. -/
def insertLe (x : ℚ) : List ℚ → List ℚ
  | [] => [x]
  | y :: ys => if x ≤ y then x :: y :: ys else y :: insertLe x ys

/-- Sort a list of rationals in nondecreasing order. -/
def sortLe (l : List ℚ) : List ℚ := l.foldr insertLe []

/-- Embedding of `np.median` of a list of values: sort, take the middle element (odd
length) or the mean of the two middle elements (even length); the median of
an empty slice is NaN (`none`). -/
def median (l : List ℚ) : Option ℚ :=
  let s := sortLe l
  let n := s.length
  if n = 0 then none
  else if n % 2 = 1 then some (s.getD (n / 2) 0)
  else some ((s.getD (n / 2 - 1) 0 + s.getD (n / 2) 0) / 2)

/-! ## StackAggregator: `MedianEPSF.run` (psf.py lines 44–73) -/

/-- One source cutout, as consumed by `MedianEPSF.run`: pixel data plus the
number of sources detected inside it (`len(c.sources)`). -/
structure Cutout where
  data : List (List ℚ)
  sources : ℕ
  deriving Repr, DecidableEq

/-- Failure of `MedianEPSF.run`.  `axisError` is the `numpy.AxisError` that
`np.nanmax(good_cutouts, (1, 2))` raises when the stack of retained cutouts
is empty (the array then has one dimension, so axes 1 and 2 do not exist).
`emptyStack` is the condition the spec's error taxonomy postulates for an
empty stack; it is included so the spec's claim can be stated, and the code
never produces it. -/
inductive StackError where
  | axisError
  | emptyStack
  deriving Repr, DecidableEq

/-- Embedding of `np.nanmedian(stack, 0)`: the pixel-wise median across the stacked
cutouts.  Output pixels are `Option ℚ` because numpy produces NaN where a
slice is empty; `np.nanmedian` of an empty stack (a `(0,)`-shaped array) is
the scalar NaN, modelled as the single-pixel stamp `[[none]]`. -/
def medianStack (stack : List (List (List ℚ))) : List (List (Option ℚ)) :=
  match stack with
  | [] => [[none]]
  | m :: _ =>
    (List.range m.length).map fun i =>
      (List.range (m.headD []).length).map fun j =>
        median (stack.map fun t => get2 t i j)

/-- Result of `MedianEPSF.run`: the written `image.epsf` stamp and the
written `epsf_n_sources` count. -/
structure EpsfResult where
  epsf : List (List (Option ℚ))
  nSources : ℕ
  deriving Repr, DecidableEq

/-- Embedding of `MedianEPSF.run` (psf.py lines 65–73): retain cutouts with
`len(c.sources) <= max_sources`; if `normalize`, divide every retained
cutout by its own `np.nanmax` (raising `AxisError` when none were retained,
because the axes `(1, 2)` do not exist on the empty stack); write the
pixel-wise `np.nanmedian` and the retained count. -/
def MedianEPSF.run (maxSources : ℕ) (normalize : Bool) (cutouts : List Cutout) :
    Except StackError EpsfResult :=
  let goodCutouts := (cutouts.filter fun c => c.sources ≤ maxSources).map Cutout.data
  if normalize then
    if goodCutouts.isEmpty then .error .axisError
    else
      let normalized := goodCutouts.map fun d => d.map fun row => row.map fun v => v / max2 d
      .ok { epsf := medianStack normalized, nSources := goodCutouts.length }
  else
    .ok { epsf := medianStack goodCutouts, nSources := goodCutouts.length }

/-! ## MomentEstimator: `moments` (psf.py lines 15–41) -/

/-- Failure of `moments`.  `valueError` is the `ValueError: cannot convert
float NaN to integer` that `int(y)` raises when the background-subtracted
stamp sums to zero: both centroid divisions are then `0.0 / 0.0 = NaN`
(the subtracted stamp is non-negative, so a zero total forces zero
numerators), and `data[:, int(y)]` fails. -/
inductive MomentsError where
  | valueError
  deriving Repr, DecidableEq

/-- The parameter dictionary returned by `moments`.  The width fields are
`Option ℚ` because Python silently returns NaN widths when the selected
column (resp. row) sums to zero (`0/0` inside `np.sqrt`). -/
structure MomentsResult where
  amplitude : ℚ
  x : ℚ
  y : ℚ
  sigma_x : Option ℚ
  sigma_y : Option ℚ
  background : ℚ
  theta : ℚ
  beta : ℚ
  deriving Repr, DecidableEq

/-- Centroid numerator `(x * data).sum()` where `x` is the first output of
`np.indices`: `Σ_{i,j} i * data[i][j]`. -/
def firstMomentRow (d : List (List ℚ)) : ℚ :=
  ((List.range d.length).map fun i =>
    ((d.getD i []).map fun v => (i : ℚ) * v).foldl (· + ·) 0).foldl (· + ·) 0

/-- Centroid numerator `(y * data).sum()` where `y` is the second output of
`np.indices`: `Σ_{i,j} j * data[i][j]`. -/
def firstMomentCol (d : List (List ℚ)) : ℚ :=
  (d.map fun row =>
    (((List.range row.length).map fun (j : ℕ) => (j : ℚ) * row.getD j 0).foldl (· + ·) 0)).foldl
    (· + ·) 0

/-- Embedding of `moments` (psf.py lines 15–41), parameterized by the float intrinsics
`sqrtFn` (`np.sqrt`) and `sigmaToFwhm` (`astropy gaussian_sigma_to_fwhm`).
Subtract the minimum, compute the intensity-weighted centroid, then the two
width estimates; `width_x` is taken from column `int(y)` using offsets
`arange - y`, and `width_y` from row `int(x)` using offsets `arange - x`,
exactly as the source does.  A flat stamp makes `total = 0`, the centroids
NaN, and `int(y)` raise — surfaced as `.error .valueError`. -/
def moments (sqrtFn : ℚ → ℚ) (sigmaToFwhm : ℚ) (data : List (List ℚ)) :
    Except MomentsError MomentsResult :=
  let height := max2 data
  let background := min2 data
  let d := data.map fun row => row.map fun v => v - min2 data
  let total := sum2 d
  if total = 0 then .error .valueError
  else
    let x := firstMomentRow d / total
    let y := firstMomentCol d / total
    let col := (List.range d.length).map fun i => get2 d i y.floor.toNat
    let colSum := col.foldl (· + ·) 0
    let width_x :=
      if colSum = 0 then none
      else some (sqrtFn |(((List.range col.length).map fun (i : ℕ) =>
        ((i : ℚ) - y) ^ 2 * col.getD i 0).foldl (· + ·) 0) / colSum| / sigmaToFwhm)
    let row := d.getD x.floor.toNat []
    let rowSum := row.foldl (· + ·) 0
    let width_y :=
      if rowSum = 0 then none
      else some (sqrtFn |(((List.range row.length).map fun (j : ℕ) =>
        ((j : ℚ) - x) ^ 2 * row.getD j 0).foldl (· + ·) 0) / rowSum| / sigmaToFwhm)
    .ok { amplitude := height, x := x, y := y, sigma_x := width_x, sigma_y := width_y,
          background := background, theta := 0, beta := 3 }

/-! ## AnalyticModel: Gaussian2D / Moffat2D model functions

All four `model_function`s are transcribed pointwise: the value at grid
pixel `(i, j)` (`self.x = i`, `self.y = j` from `np.indices`).  The float
intrinsics `expF`, `cosF`, `sinF` (and `powF` for `jnp.power`) are function
parameters. -/

/-- Embedding of `JAXGaussian2D.model_function` (psf.py lines 119–136), at one pixel. -/
def JAXGaussian2D.modelFunction (expF cosF sinF : ℚ → ℚ)
    (amplitude x y sigma_x sigma_y theta background : ℚ) (i j : ℚ) : ℚ :=
  let dx := i - x
  let dy := j - y
  let sx2 := sigma_x ^ 2
  let sy2 := sigma_y ^ 2
  let a := (cosF theta) ^ 2 / (2 * sx2) + (sinF theta) ^ 2 / (2 * sy2)
  let b := -(sinF (2 * theta)) / (4 * sx2) + (sinF (2 * theta)) / (4 * sy2)
  let c := (sinF theta) ^ 2 / (2 * sx2) + (cosF theta) ^ 2 / (2 * sy2)
  let psf := amplitude * expF (-(a * dx ^ 2 + 2 * b * dx * dy + c * dy ^ 2))
  psf + background

/-- Embedding of `Gaussian2D.model_function` (psf.py lines 187–203), at one pixel. -/
def Gaussian2D.modelFunction (expF cosF sinF : ℚ → ℚ)
    (height xo yo sx sy theta m : ℚ) (i j : ℚ) : ℚ :=
  let dx := i - xo
  let dy := j - yo
  let a := (cosF theta) ^ 2 / (2 * sx ^ 2) + (sinF theta) ^ 2 / (2 * sy ^ 2)
  let b := -(sinF (2 * theta)) / (4 * sx ^ 2) + (sinF (2 * theta)) / (4 * sy ^ 2)
  let c := (sinF theta) ^ 2 / (2 * sx ^ 2) + (cosF theta) ^ 2 / (2 * sy ^ 2)
  let psf := height * expF (-(a * dx ^ 2 + 2 * b * dx * dy + c * dy ^ 2))
  psf + m

/-- Embedding of `JAXMoffat2D.model_function` (psf.py lines 143–159), at one pixel:
rotate the offsets into the model frame, then the Moffat profile. -/
def JAXMoffat2D.modelFunction (cosF sinF : ℚ → ℚ) (powF : ℚ → ℚ → ℚ)
    (amplitude x y sigma_x sigma_y theta background beta : ℚ) (i j : ℚ) : ℚ :=
  let dx' := i - x
  let dy' := j - y
  let sx := sigma_x
  let sy := sigma_y
  let dx := dx' * cosF theta + dy' * sinF theta
  let dy := -dx' * sinF theta + dy' * cosF theta
  background + amplitude / powF (1 + (dx / sx) ^ 2 + (dy / sy) ^ 2) beta

/-- Embedding of `Moffat2D.model_function` (psf.py lines 231–247), at one pixel — the
source text of this method is the Gaussian expression, with no `beta` and no
Moffat profile in it. -/
def Moffat2D.modelFunction (expF cosF sinF : ℚ → ℚ)
    (height xo yo sx sy theta m : ℚ) (i j : ℚ) : ℚ :=
  let dx := i - xo
  let dy := j - yo
  let a := (cosF theta) ^ 2 / (2 * sx ^ 2) + (sinF theta) ^ 2 / (2 * sy ^ 2)
  let b := -(sinF (2 * theta)) / (4 * sx ^ 2) + (sinF (2 * theta)) / (4 * sy ^ 2)
  let c := (sinF theta) ^ 2 / (2 * sx ^ 2) + (cosF theta) ^ 2 / (2 * sy ^ 2)
  let psf := height * expF (-(a * dx ^ 2 + 2 * b * dx * dy + c * dy ^ 2))
  psf + m

/-- The Gaussian intensity formula as the spec states it (§4.3):
`I(u,v) = amplitude · exp(-(a·dx² + 2b·dx·dy + c·dy²)) + background` with
`dx = u - x`, `dy = v - y` and the stated rotation coefficients. -/
def specGaussianFormula (expF cosF sinF : ℚ → ℚ)
    (amplitude x y sx sy theta background : ℚ) (u v : ℚ) : ℚ :=
  let dx := u - x
  let dy := v - y
  let a := (cosF theta) ^ 2 / (2 * sx ^ 2) + (sinF theta) ^ 2 / (2 * sy ^ 2)
  let b := -(sinF (2 * theta)) / (4 * sx ^ 2) + (sinF (2 * theta)) / (4 * sy ^ 2)
  let c := (sinF theta) ^ 2 / (2 * sx ^ 2) + (cosF theta) ^ 2 / (2 * sy ^ 2)
  amplitude * expF (-(a * dx ^ 2 + 2 * b * dx * dy + c * dy ^ 2)) + background

/-- The Moffat intensity formula as the spec states it (§4.3): rotate
`(dx, dy)` into the model frame by `θ`, then
`I = background + amplitude / (1 + (dx/sx)² + (dy/sy)²)^beta`. -/
def specMoffatFormula (cosF sinF : ℚ → ℚ) (powF : ℚ → ℚ → ℚ)
    (amplitude x y sx sy theta background beta : ℚ) (u v : ℚ) : ℚ :=
  let dx0 := u - x
  let dy0 := v - y
  let dx := dx0 * cosF theta + dy0 * sinF theta
  let dy := -dx0 * sinF theta + dy0 * cosF theta
  background + amplitude / powF (1 + (dx / sx) ^ 2 + (dy / sy) ^ 2) beta

/-! ## Fitter: the bounded classic path and the JAX path -/

/-- Sum of `f i j` over the integer grid `{0..r-1} × {0..c-1}`. -/
def sumGrid (r c : ℕ) (f : ℕ → ℕ → ℚ) : ℚ :=
  ((List.range r).map fun i => ((List.range c).map fun j => f i j).foldl (· + ·) 0).foldl
    (· + ·) 0

/-- Embedding of `np.max(data.shape)` for a 2-D array. -/
def maxShape (data : List (List ℚ)) : ℕ := max data.length (data.headD []).length

/-- The seven-key parameter dictionary `dict(zip(keys, opt))` produced by the
classic `optimize` methods (`keys = ["amplitude", "x", "y", "sigma_x",
"sigma_y", "theta", "background"]` — note: no `beta`). -/
structure Params7 where
  amplitude : ℚ
  x : ℚ
  y : ℚ
  sigma_x : ℚ
  sigma_y : ℚ
  theta : ℚ
  background : ℚ
  deriving Repr, DecidableEq

/-- The stamp-derived box constraints passed to `scipy.optimize.minimize`
(psf.py lines 173–182 and 217–226), with `w = np.max(data.shape)` and the
float constant `np.pi` as the parameter `piV`. -/
def classicBounds (piV : ℚ) (data : List (List ℚ)) : List (ℚ × ℚ) :=
  let w : ℚ := (maxShape data : ℚ)
  [(0, 3 / 2), (0, w), (0, w), (1 / 2, w), (1 / 2, w), (-piV, piV), (0, mean2 data)]

/-- Embedding of `Gaussian2D.optimize` (psf.py lines 166–185): least-squares objective
over the cached pixel grid, seed drawn from `self._last_init` by the seven
keys, stamp-derived bounds, and `scipy.optimize.minimize` — taken as the
function parameter `minimizeFn` receiving objective, seed and bounds. -/
def Gaussian2D.optimize (expF cosF sinF : ℚ → ℚ)
    (minimizeFn : (List ℚ → ℚ) → List ℚ → List (ℚ × ℚ) → List ℚ)
    (piV : ℚ) (gridShape : List ℕ) (lastInit : Params7) (data : List (List ℚ)) : Params7 :=
  let nll : List ℚ → ℚ := fun params =>
    sumGrid (gridShape.getD 0 0) (gridShape.getD 1 0) fun i j =>
      (Gaussian2D.modelFunction expF cosF sinF (params.getD 0 0) (params.getD 1 0)
        (params.getD 2 0) (params.getD 3 0) (params.getD 4 0) (params.getD 5 0)
        (params.getD 6 0) (i : ℚ) (j : ℚ) - get2 data i j) ^ 2
  let p0 := [lastInit.amplitude, lastInit.x, lastInit.y, lastInit.sigma_x,
    lastInit.sigma_y, lastInit.theta, lastInit.background]
  let opt := minimizeFn nll p0 (classicBounds piV data)
  { amplitude := opt.getD 0 0, x := opt.getD 1 0, y := opt.getD 2 0,
    sigma_x := opt.getD 3 0, sigma_y := opt.getD 4 0, theta := opt.getD 5 0,
    background := opt.getD 6 0 }

/-- Embedding of `Moffat2D.optimize` (psf.py lines 210–229): textually the same procedure
as `Gaussian2D.optimize`, over `Moffat2D.model_function`. -/
def Moffat2D.optimize (expF cosF sinF : ℚ → ℚ)
    (minimizeFn : (List ℚ → ℚ) → List ℚ → List (ℚ × ℚ) → List ℚ)
    (piV : ℚ) (gridShape : List ℕ) (lastInit : Params7) (data : List (List ℚ)) : Params7 :=
  let nll : List ℚ → ℚ := fun params =>
    sumGrid (gridShape.getD 0 0) (gridShape.getD 1 0) fun i j =>
      (Moffat2D.modelFunction expF cosF sinF (params.getD 0 0) (params.getD 1 0)
        (params.getD 2 0) (params.getD 3 0) (params.getD 4 0) (params.getD 5 0)
        (params.getD 6 0) (i : ℚ) (j : ℚ) - get2 data i j) ^ 2
  let p0 := [lastInit.amplitude, lastInit.x, lastInit.y, lastInit.sigma_x,
    lastInit.sigma_y, lastInit.theta, lastInit.background]
  let opt := minimizeFn nll p0 (classicBounds piV data)
  { amplitude := opt.getD 0 0, x := opt.getD 1 0, y := opt.getD 2 0,
    sigma_x := opt.getD 3 0, sigma_y := opt.getD 4 0, theta := opt.getD 5 0,
    background := opt.getD 6 0 }

/-- The eight-entry parameter pytree held by the JAX path (`moments` hands
over `beta` too, and `jaxopt` optimizes every leaf of the init tree). -/
structure Params8 where
  amplitude : ℚ
  x : ℚ
  y : ℚ
  sigma_x : ℚ
  sigma_y : ℚ
  theta : ℚ
  background : ℚ
  beta : ℚ
  deriving Repr, DecidableEq

/-- The optimizer state returned by `jaxopt.ScipyMinimize.run` alongside the
parameters (it carries the scipy success/convergence information). -/
structure OptState where
  success : Bool
  deriving Repr, DecidableEq

/-- Sum of squared differences of two 2-D arrays over the shape of the
first: `jnp.sum(jnp.power(a - b, 2))`. -/
def sub2sq (a b : List (List ℚ)) : ℚ :=
  sumGrid a.length (a.headD []).length fun i j => (get2 a i j - get2 b i j) ^ 2

/-- Embedding of `_JAXPSFModel.optimize` (psf.py lines 104–112): build the least-squares
objective from the cached model and the stamp, run `jaxopt.ScipyMinimize`
(the function parameter `solver`, called with the objective and
`self._last_init` and **no bounds**), and keep only `.params` — the optimizer
state, including its success flag, is discarded. -/
def JAXPSFModel.optimize (solver : (Params8 → ℚ) → Params8 → Params8 × OptState)
    (modelFn : Params8 → List (List ℚ)) (data : List (List ℚ))
    (lastInit : Params8) : Params8 :=
  let nll : Params8 → ℚ := fun params => sub2sq (modelFn params) data
  (solver nll lastInit).1

/-! ## WarmStartController: `_PSFModelBase.run` (psf.py lines 84–97)

The per-instance mutable state is `self.shape` (initially the tuple
`(0, 0)`) and `self._last_init` (initially `None`).  `image.epsf.shape` is an
`np.ndarray` (the `Image.shape` property returns an array — see
`centroids.py` line 53 and `calibration.py` line 195, which do arithmetic on
it), so `np.all(image.epsf.shape != self.shape)` is an **element-wise**
comparison: the pixel grid `self.x, self.y = np.indices(self.shape)` and the
model are rebuilt only when *every* dimension differs.  The grid's shape is
always the stored `shape` field.  The seed actually read by `optimize` is
`self._last_init`; `moments` runs only when `_last_init is None`, and
`_last_init` is replaced by the fitted parameters after every fit.  The
parameter payload is abstract (`P`): the control flow does not inspect it. -/

/-- Embedding of `np.all(a != b)` for two equal-length integer shape arrays. -/
def allDiffer (a b : List ℕ) : Bool := (a.zip b).all fun p => p.1 ≠ p.2

/-- The cached state of a `_PSFModelBase` instance. -/
structure FitState (P : Type) where
  shape : List ℕ
  lastInit : Option P
  deriving Repr, DecidableEq

/-- State of a freshly constructed block (no reference image):
`self.shape = (0, 0)`, `self._last_init = None`. -/
def FitState.initial (P : Type) : FitState P := { shape := [0, 0], lastInit := none }

/-- The fields of the processed image touched (or, per the spec, supposed to
be touched) by `run`: `image.epsf.params`, and the `epsf_converged` flag the
spec says is attached — no statement in the source writes it, so `run`
carries it through unchanged. -/
structure ImageState (P : Type) where
  epsfParams : Option P
  epsfConverged : Option Bool
  deriving Repr, DecidableEq

/-- Everything observable about one `run` call: the state after the call,
the image fields after the call, the seed `optimize` read from
`self._last_init`, whether `moments` was invoked, and the fitted output. -/
structure RunTrace (P : Type) where
  state : FitState P
  image : ImageState P
  seed : P
  usedMoments : Bool
  output : P
  deriving Repr, DecidableEq

/-- Embedding of `_PSFModelBase.run` (psf.py lines 84–97).  `momentsFn` is the seeding
estimator (it can raise, as `moments` does; the error propagates out of
`run` after `self.shape` has already been mutated, hence the error carries
the post-mutation state); `optimizeFn` is the subclass `optimize`, reading
the seed, the cached grid shape and the stamp. -/
def PSFModelBase.run {P : Type} (momentsFn : List (List ℚ) → Except MomentsError P)
    (optimizeFn : P → List ℕ → List (List ℚ) → P)
    (st : FitState P) (img : ImageState P) (stamp : List (List ℚ)) :
    Except (MomentsError × FitState P) (RunTrace P) :=
  let shape' := if allDiffer (shape2 stamp) st.shape then shape2 stamp else st.shape
  match st.lastInit with
  | none =>
    match momentsFn stamp with
    | .error e => .error (e, { shape := shape', lastInit := none })
    | .ok init =>
      let params := optimizeFn init shape' stamp
      .ok { state := { shape := shape', lastInit := some params },
            image := { epsfParams := some params, epsfConverged := img.epsfConverged },
            seed := init, usedMoments := true, output := params }
  | some p =>
    let params := optimizeFn p shape' stamp
    .ok { state := { shape := shape', lastInit := some params },
          image := { epsfParams := some params, epsfConverged := img.epsfConverged },
          seed := p, usedMoments := false, output := params }

/-- Cached shape (the shape of the pixel grid `self.x, self.y`) after a
`run` call, on either outcome: on an exception it is the already-mutated
`self.shape`, on success the shape stored in the returned trace. -/
def tracedShape {P : Type} : Except (MomentsError × FitState P) (RunTrace P) → List ℕ
  | .error (_, s) => s.shape
  | .ok t => t.state.shape

/-- Box contract of a bounded minimizer (the documented behaviour of
`scipy.optimize.minimize` with `bounds`, which projects every iterate into
the box): whenever a bound interval is nonempty, the corresponding component
of the returned vector lies inside it, and the returned vector matches the
bounds entry-for-entry. -/
def RespectsBounds (minimizeFn : (List ℚ → ℚ) → List ℚ → List (ℚ × ℚ) → List ℚ) : Prop :=
  ∀ (f : List ℚ → ℚ) (p0 : List ℚ) (bs : List (ℚ × ℚ)),
    List.Forall₂ (fun b v => b.1 ≤ b.2 → b.1 ≤ v ∧ v ≤ b.2) bs (minimizeFn f p0 bs)

/-- The spec's stamp-derived bounds (§4.4): `amplitude ∈ [0, 1.5]`,
`x, y ∈ [0, w]`, `sigma_x, sigma_y ∈ [0.5, w]`, `theta ∈ [-π, π]`,
`background ∈ [0, m]`, with `w = max(stamp.shape)` and `m` the stamp's mean
intensity (`π` passed as `piV`). -/
def InClassicBounds (piV : ℚ) (data : List (List ℚ)) (p : Params7) : Prop :=
  (0 ≤ p.amplitude ∧ p.amplitude ≤ 3 / 2) ∧
  (0 ≤ p.x ∧ p.x ≤ (maxShape data : ℚ)) ∧
  (0 ≤ p.y ∧ p.y ≤ (maxShape data : ℚ)) ∧
  (1 / 2 ≤ p.sigma_x ∧ p.sigma_x ≤ (maxShape data : ℚ)) ∧
  (1 / 2 ≤ p.sigma_y ∧ p.sigma_y ≤ (maxShape data : ℚ)) ∧
  (-piV ≤ p.theta ∧ p.theta ≤ piV) ∧
  (0 ≤ p.background ∧ p.background ≤ mean2 data)

/-! ## Theorems settling the claims -/

/-- For a nonempty list whose elements all equal `k`, the minimum is `k`. -/
theorem listMin_all_eq (k : ℚ) (l : List ℚ) (hne : l ≠ []) (h : ∀ v ∈ l, v = k) :
    listMin l = k := by
  match l, hne with
  | x :: xs, _ =>
    have hx : x = k := h x (List.mem_cons_self x xs)
    have haux : ∀ (ys : List ℚ) (a : ℚ), a = k → (∀ v ∈ ys, v = k) → ys.foldl min a = k := by
      intro ys
      induction ys with
      | nil => intro a ha _; simpa using ha
      | cons y ys ih =>
        intro a ha hy
        have hyk : y = k := hy y (List.mem_cons_self y ys)
        simpa [List.foldl_cons, ha, hyk] using ih k (by simp) fun v hv => hy v (List.mem_cons_of_mem y hv)
    simpa [listMin] using haux xs x hx fun v hv => h v (List.mem_cons_of_mem x hv)

/-- A left sum of zeros is zero. -/
theorem foldl_add_all_zero (l : List ℚ) (h : ∀ v ∈ l, v = 0) : l.foldl (· + ·) 0 = 0 := by
  have haux : ∀ (ys : List ℚ) (a : ℚ), (∀ v ∈ ys, v = 0) → ys.foldl (· + ·) a = a := by
    intro ys
    induction ys with
    | nil => intro a _; rfl
    | cons y ys ih =>
      intro a hy
      have hyk : y = 0 := hy y (List.mem_cons_self y ys)
      simpa [List.foldl_cons, hyk] using ih a fun v hv => hy v (List.mem_cons_of_mem y hv)
  exact haux l 0 h

/-- C5: on every flat (zero-variance, nonempty) stamp, `moments` fails
explicitly — the degenerate zero total makes the centroid NaN and the
integer conversion raise — rather than returning any parameter dictionary
(in particular none containing NaN sigma estimates). -/
theorem moments_flat_stamp_fails_explicitly (sqrtFn : ℚ → ℚ) (sigmaToFwhm k : ℚ)
    (data : List (List ℚ)) (hne : flat2 data ≠ [])
    (hflat : ∀ r ∈ data, ∀ v ∈ r, v = k) :
    moments sqrtFn sigmaToFwhm data = .error .valueError := by
  have hmem : ∀ v ∈ flat2 data, v = k := by
    intro v hv
    obtain ⟨r, hr, hvr⟩ := List.mem_flatten.mp hv
    exact hflat r hr v hvr
  have hmin : min2 data = k := listMin_all_eq k (flat2 data) hne hmem
  have htotal : sum2 (data.map fun row => row.map fun v => v - min2 data) = 0 := by
    apply foldl_add_all_zero
    intro v hv
    obtain ⟨r, hr, hvr⟩ := List.mem_flatten.mp hv
    obtain ⟨r0, hr0, hrr⟩ := List.mem_map.mp hr
    subst hrr
    obtain ⟨w, hw, hwv⟩ := List.mem_map.mp hvr
    subst hwv
    rw [hmin, hflat r0 hr0 w hw, sub_self]
  simp only [moments]
  rw [if_pos htotal]

/-- C5 witness: the concrete flat stamp `[[2, 2], [2, 2]]`. -/
theorem moments_flat_stamp_fails_explicitly_witness :
    moments id 1 [[2, 2], [2, 2]] = .error .valueError :=
  moments_flat_stamp_fails_explicitly id 1 2 [[2, 2], [2, 2]] (by decide)
    (by intro r hr v hv; fin_cases hr <;> fin_cases hv <;> rfl)

/-- C2 counterexample: with zero qualifying cutouts, `MedianEPSF.run`
produces the NaN stamp when `normalize` is off (silently, as a success) and
raises the numpy axis error — not an `EmptyStack` condition — when
`normalize` is on. -/
theorem medianEPSF_emptyStack_counterexample :
    MedianEPSF.run 1 false [{ data := [[1]], sources := 2 }]
      = .ok { epsf := [[none]], nSources := 0 } ∧
    MedianEPSF.run 1 true [{ data := [[1]], sources := 2 }] = .error .axisError ∧
    StackError.axisError ≠ StackError.emptyStack :=
  ⟨rfl, rfl, by decide⟩

/-- C2 (amended): for every collection of cutouts in which zero cutouts pass
the `max_sources` filter, `MedianEPSF.run` raises the numpy axis error from
the normalization step when `normalize` is enabled, and silently returns the
NaN stamp (with `epsf_n_sources = 0`) when `normalize` is disabled; no
explicit `EmptyStack` condition exists in the code. -/
theorem medianEPSF_empty_stack_behavior (maxSources : ℕ) (cutouts : List Cutout)
    (h : cutouts.filter (fun c => c.sources ≤ maxSources) = []) :
    MedianEPSF.run maxSources true cutouts = .error .axisError ∧
    MedianEPSF.run maxSources false cutouts = .ok { epsf := [[none]], nSources := 0 } := by
  constructor <;> simp [MedianEPSF.run, h, medianStack]

/-- C2 witness: a single 1-source cutout filtered out by `max_sources = 0`. -/
theorem medianEPSF_empty_stack_behavior_witness :
    MedianEPSF.run 0 true [{ data := [[2]], sources := 1 }] = .error .axisError ∧
    MedianEPSF.run 0 false [{ data := [[2]], sources := 1 }]
      = .ok { epsf := [[none]], nSources := 0 } :=
  medianEPSF_empty_stack_behavior 0 [{ data := [[2]], sources := 1 }] (by rfl)

/-- C9: for every parameter set and pixel, the numpy and the JAX Gaussian2D
render implementations return `amplitude * exp(-(a*dx^2 + 2*b*dx*dy +
c*dy^2)) + background` with the stated rotation coefficients, for any
interpretation of the float intrinsics — hence the two execution strategies
render identical intensities for identical inputs. -/
theorem gaussian_renders_agree_and_match_spec (expF cosF sinF : ℚ → ℚ)
    (amplitude x y sx sy theta background u v : ℚ) :
    JAXGaussian2D.modelFunction expF cosF sinF amplitude x y sx sy theta background u v
      = Gaussian2D.modelFunction expF cosF sinF amplitude x y sx sy theta background u v ∧
    Gaussian2D.modelFunction expF cosF sinF amplitude x y sx sy theta background u v
      = specGaussianFormula expF cosF sinF amplitude x y sx sy theta background u v := by
  exact ⟨rfl, rfl⟩

/-- C4: the JAX Moffat2D render matches the spec's Moffat formula for every
parameter set, pixel and interpretation of the intrinsics, but the non-JAX
`Moffat2D.model_function` is literally the Gaussian expression (it never
computes the Moffat profile and ignores `beta`); at the concrete input
`amplitude=1, x=y=0, sigma_x=sigma_y=1, theta=0, background=0, beta=1`,
pixel `(1, 0)`, it disagrees with the Moffat formula (shown here with exact
truncated-series interpretations of the intrinsics at the evaluated
arguments). -/
theorem moffat_nonjax_renders_gaussian :
    (∀ (expF cosF sinF : ℚ → ℚ) (height xo yo sx sy theta m u v : ℚ),
      Moffat2D.modelFunction expF cosF sinF height xo yo sx sy theta m u v
        = Gaussian2D.modelFunction expF cosF sinF height xo yo sx sy theta m u v) ∧
    (∀ (cosF sinF : ℚ → ℚ) (powF : ℚ → ℚ → ℚ)
        (amplitude x y sx sy theta background beta u v : ℚ),
      JAXMoffat2D.modelFunction cosF sinF powF amplitude x y sx sy theta background beta u v
        = specMoffatFormula cosF sinF powF amplitude x y sx sy theta background beta u v) ∧
    Moffat2D.modelFunction (fun t => 1 + t + t ^ 2 / 2) (fun _ => 1) (fun _ => 0)
        1 0 0 1 1 0 0 1 0
      ≠ specMoffatFormula (fun _ => 1) (fun _ => 0) (fun b _ => b) 1 0 0 1 1 0 0 1 1 0 := by
  refine ⟨fun _ _ _ _ _ _ _ _ _ _ _ _ => rfl, fun _ _ _ _ _ _ _ _ _ _ _ _ _ => rfl, ?_⟩
  norm_num [Moffat2D.modelFunction, specMoffatFormula]

/-- C1 counterexample: a controller warmed on a `3×3` stamp (cached fitted
value `2`) receives a `5×5` stamp — every dimension differs, so the grid is
rebuilt — yet the seed of the second fit is the stale cached `2`, the
estimator is not re-invoked, and the estimator's value on the new stamp
(here the instantiated estimator returns the row count, `5`) differs from
the seed.  The parameter payload is `ℕ`; the control flow of `run` never
inspects it. -/
theorem warm_shape_change_stale_seed_counterexample :
    PSFModelBase.run (P := ℕ) (fun s => .ok s.length) (fun p _ _ => p + 10)
        (FitState.initial ℕ) { epsfParams := none, epsfConverged := none }
        [[1, 1, 1], [1, 1, 1], [1, 1, 1]]
      = .ok { state := { shape := [3, 3], lastInit := some 13 },
              image := { epsfParams := some 13, epsfConverged := none },
              seed := 3, usedMoments := true, output := 13 } ∧
    PSFModelBase.run (P := ℕ) (fun s => .ok s.length) (fun p _ _ => p + 10)
        { shape := [3, 3], lastInit := some 13 }
        { epsfParams := some 13, epsfConverged := none }
        [[1, 1, 1, 1, 1], [1, 1, 1, 1, 1], [1, 1, 1, 1, 1], [1, 1, 1, 1, 1], [1, 1, 1, 1, 1]]
      = .ok { state := { shape := [5, 5], lastInit := some 23 },
              image := { epsfParams := some 23, epsfConverged := none },
              seed := 13, usedMoments := false, output := 23 } ∧
    (13 : ℕ) ≠ 5 :=
  ⟨rfl, rfl, by decide⟩

/-- C1 (amended): for every controller in the Warm state (a previous fit
cached in `_last_init`) that receives a stamp of a different shape, the
MomentEstimator is *not* re-invoked: the seed used for that fit is exactly
the stale cached fitted parameters. -/
theorem warm_shape_change_keeps_stale_seed {P : Type}
    (momentsFn : List (List ℚ) → Except MomentsError P)
    (optimizeFn : P → List ℕ → List (List ℚ) → P)
    (st : FitState P) (img : ImageState P) (stamp : List (List ℚ)) (p : P)
    (hwarm : st.lastInit = some p) (_hdiff : shape2 stamp ≠ st.shape) :
    Except.map (fun t => (t.seed, t.usedMoments))
      (PSFModelBase.run momentsFn optimizeFn st img stamp) = .ok (p, false) := by
  simp [PSFModelBase.run, hwarm, Except.map]

/-- C1 witness for the amended claim: warm state of shape `[3, 3]` with
cached value `13`, incoming `5×5` stamp. -/
theorem warm_shape_change_keeps_stale_seed_witness :
    Except.map (fun t => (t.seed, t.usedMoments))
      (PSFModelBase.run (P := ℕ) (fun s => .ok s.length) (fun p _ _ => p + 10)
        { shape := [3, 3], lastInit := some 13 }
        { epsfParams := some 13, epsfConverged := none }
        [[1, 1, 1, 1, 1], [1, 1, 1, 1, 1], [1, 1, 1, 1, 1], [1, 1, 1, 1, 1], [1, 1, 1, 1, 1]])
      = .ok (13, false) :=
  warm_shape_change_keeps_stale_seed _ _ _ _ _ 13 rfl (by decide)

/-- C7: a controller that has completed a first fit and receives a second
stamp of identical shape uses the first fit's output parameters, exactly, as
the seed of the second fit, and does not invoke the MomentEstimator. -/
theorem warm_same_shape_reuses_previous_fit {P : Type}
    (momentsFn : List (List ℚ) → Except MomentsError P)
    (optimizeFn : P → List ℕ → List (List ℚ) → P)
    (img1 img2 : ImageState P) (stamp1 stamp2 : List (List ℚ)) (t1 : RunTrace P)
    (h1 : PSFModelBase.run momentsFn optimizeFn (FitState.initial P) img1 stamp1 = .ok t1)
    (_hsh : shape2 stamp2 = shape2 stamp1) :
    Except.map (fun t => (t.seed, t.usedMoments))
      (PSFModelBase.run momentsFn optimizeFn t1.state img2 stamp2) = .ok (t1.output, false) := by
  have hlast : t1.state.lastInit = some t1.output := by
    simp only [PSFModelBase.run, FitState.initial] at h1
    cases hm : momentsFn stamp1 with
    | error e => rw [hm] at h1; simp at h1
    | ok init => rw [hm] at h1; simp only [Except.ok.injEq] at h1; rw [← h1]
  simp [PSFModelBase.run, hlast, Except.map]

/-- C7 witness: first fit on a `2×2` stamp yields `12`; the second `2×2`
stamp is then seeded with `12` and no moments are computed. -/
theorem warm_same_shape_reuses_previous_fit_witness :
    Except.map (fun t => (t.seed, t.usedMoments))
      (PSFModelBase.run (P := ℕ) (fun s => .ok s.length) (fun p _ _ => p + 10)
        { shape := [2, 2], lastInit := some 12 }
        { epsfParams := none, epsfConverged := none } [[5, 6], [7, 8]])
      = .ok (12, false) :=
  warm_same_shape_reuses_previous_fit (fun s => .ok s.length) (fun p _ _ => p + 10)
    { epsfParams := none, epsfConverged := none } { epsfParams := none, epsfConverged := none }
    [[1, 1], [1, 1]] [[5, 6], [7, 8]]
    { state := { shape := [2, 2], lastInit := some 12 },
      image := { epsfParams := some 12, epsfConverged := none },
      seed := 2, usedMoments := true, output := 12 }
    rfl (by decide)

/-- C10 counterexample: a controller whose cached grid has shape `[5, 9]`
(reached by a first run on a `5×9` stamp) receives a `5×7` stamp.  Only the
second dimension differs, `np.all` of the element-wise comparison is false,
the grid is not rebuilt, and after the call the cached grid shape `[5, 9]`
differs from the stamp's shape `[5, 7]`. -/
theorem grid_shape_mismatch_counterexample :
    PSFModelBase.run (P := ℕ) (fun s => .ok s.length) (fun p _ _ => p + 10)
        (FitState.initial ℕ) { epsfParams := none, epsfConverged := none }
        (List.replicate 5 (List.replicate 9 (1 : ℚ)))
      = .ok { state := { shape := [5, 9], lastInit := some 15 },
              image := { epsfParams := some 15, epsfConverged := none },
              seed := 5, usedMoments := true, output := 15 } ∧
    PSFModelBase.run (P := ℕ) (fun s => .ok s.length) (fun p _ _ => p + 10)
        { shape := [5, 9], lastInit := some 15 }
        { epsfParams := some 15, epsfConverged := none }
        (List.replicate 5 (List.replicate 7 (1 : ℚ)))
      = .ok { state := { shape := [5, 9], lastInit := some 25 },
              image := { epsfParams := some 25, epsfConverged := none },
              seed := 15, usedMoments := false, output := 25 } ∧
    shape2 (List.replicate 5 (List.replicate 7 (1 : ℚ))) = [5, 7] ∧
    ([5, 9] : List ℕ) ≠ [5, 7] :=
  ⟨rfl, rfl, rfl, by decide⟩

/-- C10 (amended): after a `run` call the cached pixel-grid shape equals the
incoming stamp's shape precisely when either every dimension differed from
the cached shape (the element-wise `np.all` test fires and the grid is
rebuilt) or the shapes were already equal; a stamp differing in only some
dimensions leaves a stale grid. -/
theorem grid_shape_rebuild_characterization {P : Type}
    (momentsFn : List (List ℚ) → Except MomentsError P)
    (optimizeFn : P → List ℕ → List (List ℚ) → P)
    (st : FitState P) (img : ImageState P) (stamp : List (List ℚ)) :
    tracedShape (PSFModelBase.run momentsFn optimizeFn st img stamp) = shape2 stamp
      ↔ (allDiffer (shape2 stamp) st.shape = true ∨ st.shape = shape2 stamp) := by
  obtain ⟨sh, li⟩ := st
  have hcore : tracedShape (PSFModelBase.run momentsFn optimizeFn ⟨sh, li⟩ img stamp)
      = if allDiffer (shape2 stamp) sh then shape2 stamp else sh := by
    cases li with
    | none =>
      cases hm : momentsFn stamp with
      | error e => simp [PSFModelBase.run, hm, tracedShape]
      | ok init => simp [PSFModelBase.run, hm, tracedShape]
    | some p => simp [PSFModelBase.run, tracedShape]
  rw [hcore]
  by_cases hA : allDiffer (shape2 stamp) sh
  · simp [hA]
  · simp only [hA, if_false, Bool.false_eq_true, false_or]

/-- C3 counterexample: the JAX optimizer is instantiated with a solver whose
returned optimizer state reports `success = false` (a non-converged
outcome); `_JAXPSFModel.optimize` keeps only `.params`, and after `run` the
image carries no converged flag at all (`none`, not `some false`). -/
theorem converged_flag_never_set_counterexample :
    PSFModelBase.run (P := Params8)
        (fun _ => .ok { amplitude := 1, x := 0, y := 0, sigma_x := 1, sigma_y := 1,
                        theta := 0, background := 0, beta := 3 })
        (fun p _ stamp => JAXPSFModel.optimize (fun _ q => (q, { success := false }))
          (fun _ => [[0]]) stamp p)
        (FitState.initial Params8) { epsfParams := none, epsfConverged := none } [[1]]
      = .ok { state := { shape := [1, 1],
                         lastInit := some { amplitude := 1, x := 0, y := 0, sigma_x := 1,
                                            sigma_y := 1, theta := 0, background := 0, beta := 3 } },
              image := { epsfParams := some { amplitude := 1, x := 0, y := 0, sigma_x := 1,
                                              sigma_y := 1, theta := 0, background := 0, beta := 3 },
                         epsfConverged := none },
              seed := { amplitude := 1, x := 0, y := 0, sigma_x := 1, sigma_y := 1,
                        theta := 0, background := 0, beta := 3 },
              usedMoments := true,
              output := { amplitude := 1, x := 0, y := 0, sigma_x := 1, sigma_y := 1,
                          theta := 0, background := 0, beta := 3 } } ∧
    (none : Option Bool) ≠ some false :=
  ⟨rfl, by decide⟩

/-- C3 (amended): the Fitter returns the optimizer's parameters as-is and no
converged flag is ever computed or attached: after every successful `run`
the image's `epsf_converged` field is whatever it was before the call, and
the parameters written are exactly the optimizer's output. -/
theorem run_returns_params_without_converged_flag {P : Type}
    (momentsFn : List (List ℚ) → Except MomentsError P)
    (optimizeFn : P → List ℕ → List (List ℚ) → P)
    (st : FitState P) (img : ImageState P) (stamp : List (List ℚ)) (t : RunTrace P)
    (h : PSFModelBase.run momentsFn optimizeFn st img stamp = .ok t) :
    t.image.epsfConverged = img.epsfConverged ∧ t.image.epsfParams = some t.output := by
  obtain ⟨sh, li⟩ := st
  cases li with
  | none =>
    cases hm : momentsFn stamp with
    | error e => rw [PSFModelBase.run] at h; simp [hm] at h
    | ok init =>
      rw [PSFModelBase.run] at h
      simp only [hm, Except.ok.injEq] at h
      rw [← h]
      exact ⟨rfl, rfl⟩
  | some p =>
    rw [PSFModelBase.run] at h
    simp only [Except.ok.injEq] at h
    rw [← h]
    exact ⟨rfl, rfl⟩

/-- C3 witness for the amended claim: a concrete run leaving the converged
field untouched. -/
theorem run_returns_params_without_converged_flag_witness :
    (none : Option Bool) = none ∧ (some 10 : Option ℕ) = some 10 :=
  run_returns_params_without_converged_flag (P := ℕ) (fun _ => .ok 0) (fun p _ _ => p + 10)
    (FitState.initial ℕ) { epsfParams := none, epsfConverged := none } [[3]]
    { state := { shape := [1, 1], lastInit := some 10 },
      image := { epsfParams := some 10, epsfConverged := none },
      seed := 0, usedMoments := true, output := 10 }
    rfl

/-- Reading a mapped list at any index commutes with the function, provided
the function maps the default to the default. -/
theorem getD_map_of_default {α β : Type} (f : α → β) (da : α) (db : β) (h : f da = db) :
    ∀ (l : List α) (i : ℕ), (l.map f).getD i db = f (l.getD i da) := by
  intro l
  induction l with
  | nil => intro i; simpa [List.getD] using h.symm
  | cons a l ih =>
    intro i
    cases i with
    | zero => rfl
    | succ n => simpa [List.getD] using ih n

/-- Pixel access commutes with an element-wise map that fixes `0`. -/
theorem get2_map_each (f : ℚ → ℚ) (hf : f 0 = 0) (d : List (List ℚ)) (i j : ℕ) :
    get2 (d.map fun row => row.map f) i j = f (get2 d i j) := by
  unfold get2
  rw [getD_map_of_default (fun row => row.map f) ([] : List ℚ) ([] : List ℚ) rfl d i]
  exact getD_map_of_default f 0 0 hf (d.getD i []) j

/-- C8: with `normalize` enabled, `MedianEPSF.run` keeps exactly the cutouts
whose source count is at most `max_sources`, divides each retained cutout by
its own peak, and returns the pixel-wise median of those normalized
cutouts (together with the retained count), for every uniformly-shaped
collection with at least one qualifying cutout. -/
theorem medianEPSF_filters_normalizes_medians (maxSources : ℕ) (cutouts : List Cutout)
    (r c : ℕ)
    (hshape : ∀ cu ∈ cutouts, cu.data.length = r ∧ ∀ row ∈ cu.data, row.length = c)
    (hr : 0 < r)
    (hgood : cutouts.filter (fun cu => cu.sources ≤ maxSources) ≠ []) :
    MedianEPSF.run maxSources true cutouts
      = .ok { epsf := (List.range r).map fun i => (List.range c).map fun j =>
                median ((cutouts.filter fun cu => cu.sources ≤ maxSources).map fun cu =>
                  get2 cu.data i j / max2 cu.data),
              nSources := (cutouts.filter fun cu => cu.sources ≤ maxSources).length } := by
  obtain ⟨g, gs, hcons⟩ := List.exists_cons_of_ne_nil hgood
  have hgmem : g ∈ cutouts := by
    have hmem : g ∈ cutouts.filter (fun cu => cu.sources ≤ maxSources) := by
      rw [hcons]; exact List.mem_cons_self g gs
    exact List.mem_of_mem_filter hmem
  obtain ⟨hglen, hgrows⟩ := hshape g hgmem
  obtain ⟨r0, rest, hgdata⟩ : ∃ r0 rest, g.data = r0 :: rest := by
    cases hd : g.data with
    | nil => rw [hd] at hglen; simp at hglen; omega
    | cons a l => exact ⟨a, l, rfl⟩
  have hr0len : r0.length = c := hgrows r0 (by rw [hgdata]; exact List.mem_cons_self r0 rest)
  rw [MedianEPSF.run]
  simp only [hcons, List.map_cons, List.isEmpty_cons, Bool.false_eq_true, if_false,
    if_true, medianStack]
  refine congrArg Except.ok ?_
  refine congrArg₂ EpsfResult.mk ?_ (by simp)
  have hlen1 : (g.data.map fun row => row.map fun v => v / max2 g.data).length = r := by
    rw [List.length_map, hglen]
  have hhead : ((g.data.map fun row => row.map fun v => v / max2 g.data).headD []).length
      = c := by
    rw [hgdata]
    simpa using hr0len
  rw [hlen1, hhead]
  refine List.map_congr_left fun i _ => ?_
  refine List.map_congr_left fun j _ => ?_
  refine congrArg median ?_
  refine congrArg₂ List.cons ?_ ?_
  · exact get2_map_each (fun v => v / max2 g.data) (zero_div _) g.data i j
  · rw [List.map_map, List.map_map]
    refine List.map_congr_left fun cu _ => ?_
    simp only [Function.comp]
    exact get2_map_each (fun v => v / max2 cu.data) (zero_div _) cu.data i j

/-- C8 witness: three `2×2` cutouts of which the middle one has two sources
and `max_sources = 1`; the result is the pixel-wise median of the two
retained peak-normalized cutouts. -/
theorem medianEPSF_filters_normalizes_medians_witness :
    MedianEPSF.run 1 true
        [{ data := [[1, 2], [3, 4]], sources := 1 },
         { data := [[5, 5], [5, 5]], sources := 2 },
         { data := [[8, 4], [2, 6]], sources := 1 }]
      = .ok { epsf := [[some (5 / 8), some (1 / 2)], [some (1 / 2), some (7 / 8)]],
              nSources := 2 } := by
  have h := medianEPSF_filters_normalizes_medians 1
    [{ data := [[1, 2], [3, 4]], sources := 1 },
     { data := [[5, 5], [5, 5]], sources := 2 },
     { data := [[8, 4], [2, 6]], sources := 1 }] 2 2
    (by intro cu hcu; fin_cases hcu <;>
      exact ⟨rfl, by intro row hrow; fin_cases hrow <;> rfl⟩)
    (by norm_num) (by decide)
  rw [h]
  norm_num [List.filter, median, sortLe, insertLe, get2, max2, listMax, flat2,
    List.range_succ]
  exact ⟨⟨by simp, by simp⟩, by simp, by simp⟩

/-- Extracting the components of a minimizer output constrained
entry-by-entry to the stamp-derived bounds list. -/
theorem forall2_classic_bounds_getD (piV : ℚ) (data : List (List ℚ)) (o : List ℚ)
    (h : List.Forall₂ (fun b v => b.1 ≤ b.2 → b.1 ≤ v ∧ v ≤ b.2) (classicBounds piV data) o)
    (hpi : 0 ≤ piV) (hmean : 0 ≤ mean2 data) (hw : 1 ≤ (maxShape data : ℚ)) :
    InClassicBounds piV data
      { amplitude := o.getD 0 0, x := o.getD 1 0, y := o.getD 2 0, sigma_x := o.getD 3 0,
        sigma_y := o.getD 4 0, theta := o.getD 5 0, background := o.getD 6 0 } := by
  simp only [classicBounds] at h
  rcases h with _ | ⟨h1, _ | ⟨h2, _ | ⟨h3, _ | ⟨h4, _ | ⟨h5, _ | ⟨h6, _ | ⟨h7, htail⟩⟩⟩⟩⟩⟩⟩
  cases htail
  have hw0 : (0 : ℚ) ≤ (maxShape data : ℚ) := le_trans zero_le_one hw
  have hwh : (1 : ℚ) / 2 ≤ (maxShape data : ℚ) := le_trans (by norm_num) hw
  have hpi2 : -piV ≤ piV := le_trans (neg_nonpos.mpr hpi) hpi
  refine ⟨h1 (by norm_num), h2 hw0, h3 hw0, h4 hwh, h5 hwh, h6 hpi2, h7 hmean⟩

/-- C6 (amended): under the classic execution strategy — the bounded scipy
minimizer, assumed to honour its box contract — the parameters returned by
both `Gaussian2D.optimize` and `Moffat2D.optimize` satisfy the stamp-derived
bounds `amplitude ∈ [0, 1.5]`, `x, y ∈ [0, w]`, `sigma_x, sigma_y ∈ [0.5,
w]`, `theta ∈ [-π, π]`, `background ∈ [0, m]`.  (The JAX path passes no
bounds at all; see the counterexample.) -/
theorem classic_optimize_results_satisfy_bounds (expF cosF sinF : ℚ → ℚ)
    (minimizeFn : (List ℚ → ℚ) → List ℚ → List (ℚ × ℚ) → List ℚ)
    (piV : ℚ) (gridShape : List ℕ) (lastInit : Params7) (data : List (List ℚ))
    (hresp : RespectsBounds minimizeFn) (hpi : 0 ≤ piV) (hmean : 0 ≤ mean2 data)
    (hw : 1 ≤ (maxShape data : ℚ)) :
    InClassicBounds piV data
      (Gaussian2D.optimize expF cosF sinF minimizeFn piV gridShape lastInit data) ∧
    InClassicBounds piV data
      (Moffat2D.optimize expF cosF sinF minimizeFn piV gridShape lastInit data) :=
  ⟨forall2_classic_bounds_getD piV data _ (hresp _ _ _) hpi hmean hw,
   forall2_classic_bounds_getD piV data _ (hresp _ _ _) hpi hmean hw⟩

/-- A minimizer that returns the lower corner of its box satisfies the box
contract. -/
theorem lowerCorner_respects_bounds :
    RespectsBounds fun _ _ bs => bs.map Prod.fst := by
  intro f p0 bs
  induction bs with
  | nil => exact List.Forall₂.nil
  | cons b bs ih => exact List.Forall₂.cons (fun hb => ⟨le_refl b.1, hb⟩) ih

/-- C6 witness: a concrete box-respecting minimizer and the `2×2` unit stamp
(`w = 2`, `m = 1`, `piV = 3`). -/
theorem classic_optimize_results_satisfy_bounds_witness :
    InClassicBounds 3 [[1, 1], [1, 1]]
      (Gaussian2D.optimize id id id (fun _ _ bs => bs.map Prod.fst) 3 [2, 2]
        { amplitude := 1, x := 1, y := 1, sigma_x := 1, sigma_y := 1, theta := 0,
          background := 0 } [[1, 1], [1, 1]]) ∧
    InClassicBounds 3 [[1, 1], [1, 1]]
      (Moffat2D.optimize id id id (fun _ _ bs => bs.map Prod.fst) 3 [2, 2]
        { amplitude := 1, x := 1, y := 1, sigma_x := 1, sigma_y := 1, theta := 0,
          background := 0 } [[1, 1], [1, 1]]) :=
  classic_optimize_results_satisfy_bounds id id id _ 3 [2, 2] _ [[1, 1], [1, 1]]
    lowerCorner_respects_bounds (by norm_num)
    (by norm_num [mean2, sum2, flat2, numel]) (by norm_num [maxShape])

/-- C6 counterexample: the JAX execution strategy hands `ScipyMinimize` no
bounds, so a solver consistent with everything the code passes it can
return `amplitude = 2`, violating the claimed stamp-derived bound
`amplitude ≤ 1.5` (for the stamp `[[1]]`, `w = 1`, bounds cap amplitude at
`1.5`). -/
theorem jax_optimize_unbounded_counterexample :
    JAXPSFModel.optimize
        (fun _ p => ({ p with amplitude := 2 }, { success := true }))
        (fun _ => [[0]]) [[1]]
        { amplitude := 1, x := 0, y := 0, sigma_x := 1, sigma_y := 1, theta := 0,
          background := 0, beta := 3 }
      = { amplitude := 2, x := 0, y := 0, sigma_x := 1, sigma_y := 1, theta := 0,
          background := 0, beta := 3 } ∧
    ¬((2 : ℚ) ≤ 3 / 2) :=
  ⟨rfl, by norm_num⟩

end Prose
